import Mathlib

/-!
# Verification of the Metis museum-search pipeline

Shallow embedding of the search/score/aggregate pipeline of `src/app.py`
(Flask service querying museum collection APIs), together with proofs about
the claims of its specification.

Modelling conventions:
* Python strings are Lean `String`s (lists of `Char`); `str.lower`, `str.strip`
  and the `\w`/`\s`/`\d` regex character classes are modelled at ASCII level.
* JSON payload fields read with `dict.get(k)` / `dict.get(k, default)` are
  modelled as `Option String` on the raw-payload structures; on processed
  artwork records (which always carry every key) a missing/None value is
  modelled as `""` (both are falsy in Python, and the code only ever tests
  them for truthiness or concatenates them).
* Python floats are modelled as `ℚ`: every constant in the scoring code is an
  exact decimal and the claims only concern sign and upper bounds, which are
  preserved by IEEE rounding of sums of such constants.
* `random.uniform(0, 0.1)` in the scorer is an explicit parameter `r` (one
  value per scored record, supplied as `rs : ℕ → ℚ` indexed by position);
  likewise the spaCy similarity block's observable inputs are explicit
  parameters (`hasVec` for the vector check, `sim` for the cosine value).
* Network I/O is factored out: each `search_*_artwork` embedding takes the
  HTTP status and the decoded payload of the (mocked) museum response as
  arguments and performs the pure record processing of the source code.
-/

/-! ## Python string primitives (ASCII model) -/

/-- Characters of the regex class `\s` / `str.strip` whitespace (ASCII). -/
def isSpaceChar (c : Char) : Bool :=
  c == ' ' || c == '\t' || c == '\n' || c == '\r' || c == '\x0b' || c == '\x0c'

/-- Characters of the regex class `\w` (ASCII): letters, digits, underscore. -/
def isWordChar (c : Char) : Bool := c.isAlphanum || c == '_'

/-- `str.lower` on a character list (ASCII model). -/
def lowerL (l : List Char) : List Char := l.map Char.toLower

/-- `str.strip()` : drop leading and trailing whitespace. -/
def pyStrip (l : List Char) : List Char :=
  ((l.dropWhile isSpaceChar).reverse.dropWhile isSpaceChar).reverse

/-- Numeric value of a decimal digit character. -/
def digitVal (c : Char) : ℕ := c.toNat - 48

/-- Substring test: does `pat` occur as a contiguous run inside `hay`? -/
def isInfixL (pat : List Char) : List Char → Bool
  | [] => pat.isEmpty
  | c :: rest => pat.isPrefixOf (c :: rest) || isInfixL pat rest

/-- `pat in hay` : substring containment, Python's `in` on strings. -/
def hasSub (pat : String) (hay : List Char) : Bool := isInfixL pat.data hay

/-- `' '.join(filter(None, parts))` : join the non-empty parts with spaces. -/
def joinNonEmptyWithSpace (parts : List String) : List Char :=
  List.intercalate [' '] ((parts.filter (fun s => s != "")).map String.data)

/-- `str.split()` : split on whitespace runs, discarding empty fields. -/
def splitWsGo (acc : List Char) : List Char → List (List Char)
  | [] => if acc = [] then [] else [acc.reverse]
  | c :: rest =>
    if isSpaceChar c then
      if acc = [] then splitWsGo [] rest else acc.reverse :: splitWsGo [] rest
    else splitWsGo (c :: acc) rest

def splitWs (l : List Char) : List (List Char) := splitWsGo [] l

/-- `text.replace(pat, '')`, main loop: delete the leftmost occurrence of
`pat` and continue scanning after it (Python's non-overlapping semantics). -/
def replaceAllGo (pat : List Char) : List Char → List Char
  | [] => []
  | c :: rest =>
    if pat.isPrefixOf (c :: rest) then replaceAllGo pat (rest.drop (pat.length - 1))
    else c :: replaceAllGo pat rest
  termination_by l => l.length
  decreasing_by
    · simp only [List.length_drop, List.length_cons]; omega
    · simp only [List.length_cons]; omega

/-- `text.replace(pat, '')` : delete every occurrence of `pat` in `text`
(Python returns the text unchanged for an empty pattern). -/
def replaceAll (t pat : List Char) : List Char :=
  if pat = [] then t else replaceAllGo pat t

/-! ## Regex scanners used by the date parsers

`re.search(r'\b(\d{4})\b', s)` and friends are modelled by explicit leftmost
scanners over the character list. -/

/-- A `\b(\d{4})\b` match anchored at the current position: four decimal
digits, preceded (if anything) by a non-word character, followed (if
anything) by a non-word character.  `pre` is the character just before the
current position, `none` at the start of the string. -/
def year4At (pre : Option Char) : List Char → Option ℕ
  | c1 :: c2 :: c3 :: c4 :: rest =>
    if c1.isDigit && c2.isDigit && c3.isDigit && c4.isDigit
        && (match pre with | none => true | some p => !isWordChar p)
        && (match rest with | [] => true | c5 :: _ => !isWordChar c5) then
      some (digitVal c1 * 1000 + digitVal c2 * 100 + digitVal c3 * 10 + digitVal c4)
    else none
  | _ => none

/-- `re.search(r'\b(\d{4})\b', s)` : value of the leftmost boundary-delimited
four-digit number, if any. -/
def scan4 (pre : Option Char) : List Char → Option ℕ
  | [] => none
  | c :: rest =>
    match year4At pre (c :: rest) with
    | some v => some v
    | none => scan4 (some c) rest

/-- All boundary-delimited four-digit numbers of the string, leftmost first
("the years found" in the date text). -/
def scan4All (pre : Option Char) : List Char → List ℕ
  | [] => []
  | c :: rest =>
    match year4At pre (c :: rest) with
    | some v => v :: scan4All (some c) rest
    | none => scan4All (some c) rest

/-- Consume a maximal run of decimal digits, accumulating their value. -/
def takeDigitsAcc (acc : ℕ) : List Char → ℕ × List Char
  | [] => (acc, [])
  | c :: rest =>
    if c.isDigit then takeDigitsAcc (acc * 10 + digitVal c) rest else (acc, c :: rest)

/-- Match the `(st|nd|rd|th)` alternation, returning the remaining input. -/
def ordinalAfter : List Char → Option (List Char)
  | a :: b :: rest =>
    if (a == 's' && b == 't') || (a == 'n' && b == 'd')
        || (a == 'r' && b == 'd') || (a == 't' && b == 'h') then some rest
    else none
  | _ => none

/-- Match `\s+century` : at least one whitespace character, then the literal
word `century` (the literal starts with a non-space, so consuming the maximal
whitespace run is equivalent to the regex's backtracking). -/
def spacesCentury : List Char → Bool
  | [] => false
  | c :: rest => isSpaceChar c && "century".data.isPrefixOf (rest.dropWhile isSpaceChar)

/-- A `(\d+)(st|nd|rd|th)\s+century` match anchored at the current position.
A maximal digit run is faithful to the regex: backtracking `\d+` would leave
a digit in front of the ordinal suffix, which can never match. -/
def centuryAt : List Char → Option ℕ
  | [] => none
  | c :: rest =>
    if c.isDigit then
      let (n, r) := takeDigitsAcc (digitVal c) rest
      match ordinalAfter r with
      | some r2 => if spacesCentury r2 then some n else none
      | none => none
    else none

/-- `re.search(r'(\d+)(st|nd|rd|th)\s+century', s)` : captured century number
of the leftmost match, if any. -/
def centuryScan : List Char → Option ℕ
  | [] => none
  | c :: rest =>
    match centuryAt (c :: rest) with
    | some n => some n
    | none => centuryScan rest

/-- A `(\d{3})0s` match anchored at the current position (no word
boundaries): three digits, then `0`, then `s`; value of the captured group. -/
def decadeAt : List Char → Option ℕ
  | c1 :: c2 :: c3 :: c4 :: c5 :: _ =>
    if c1.isDigit && c2.isDigit && c3.isDigit && c4 == '0' && c5 == 's' then
      some (digitVal c1 * 100 + digitVal c2 * 10 + digitVal c3)
    else none
  | _ => none

/-- `re.search(r'(\d{3})0s', s)` : captured group of the leftmost match. -/
def decadeScan : List Char → Option ℕ
  | [] => none
  | c :: rest =>
    match decadeAt (c :: rest) with
    | some n => some n
    | none => decadeScan rest

/-! ## Data model -/

/-- A normalized artwork record, the common dict shape produced by the
`search_*_artwork` functions.  Every field a processed record may carry is
present; fields absent from a given source's dicts are `""` (see the header
note on the `None`/`""` conflation).  `score` is the key added by the Met
pipeline, `relevance_score` the one added by every other source and read by
the aggregator's `sort_key`.  `is_religious` is the sensitive-category facet
of the specification's data model: Python dicts carry arbitrary extra keys
through the pipeline untouched, and this iteration of the code never reads or
writes the key, so it appears here only so that quota claims about it can be
stated. -/
structure Artwork where
  title : String := ""
  artist : String := ""
  date : String := ""
  medium : String := ""
  description : String := ""
  culture : String := ""
  period : String := ""
  style : String := ""
  tags : String := ""
  classification : String := ""
  department : String := ""
  image_url : String := ""
  source_url : String := ""
  more_info : String := ""
  source : String := ""
  score : ℚ := 0
  relevance_score : ℚ := 0
  is_contemporary : Bool := false
  is_religious : Bool := false
  deriving Repr, DecidableEq

/-- The placeholder indicators of `has_valid_image` (`src/app.py:99-108`). -/
def invalid_indicators : List String :=
  ["unknown", "placeholder", "no-image", "default", "missing",
   "not-available", "null", "none"]

/-- `has_valid_image` (`src/app.py:89-111`): non-empty image URL containing
none of the placeholder indicators (case-insensitively). -/
def has_valid_image (artwork : Artwork) : Bool :=
  if artwork.image_url.data = [] then false
  else
    let image_url_lower := lowerL artwork.image_url.data
    !(invalid_indicators.any fun ind => hasSub ind image_url_lower)

/-- `filter_valid_artworks` (`src/app.py:113-129`): keep records with a valid
image, a truthy title and date, and at least one of description / medium /
culture / period. -/
def filter_valid_artworks (artworks : List Artwork) : List Artwork :=
  artworks.filter fun a =>
    has_valid_image a && a.title != "" && a.date != "" &&
      (a.description != "" || a.medium != "" || a.culture != "" || a.period != "")

/-- `extract_year_from_date` (`src/app.py:257-280`): first boundary-delimited
four-digit number; else the mid-century year of an `Nth century` phrase; else
the mid-decade year of a `YYY0s` phrase; else no year. -/
def extract_year_from_date (date_str : String) : Option ℤ :=
  if date_str.data = [] then none
  else
    match scan4 none date_str.data with
    | some y => some (y : ℤ)
    | none =>
      match centuryScan (lowerL date_str.data) with
      | some c => some (((c : ℤ) - 1) * 100 + 50)
      | none =>
        match decadeScan date_str.data with
        | some d => some ((d : ℤ) * 10 + 5)
        | none => none

/-- `is_contemporary` (`src/app.py:56-87`): contemporary means the latest
`19xx`/`20xx` year found is ≥ 1970, with special handling of century
phrases. -/
def is_contemporary (date_str : String) : Bool :=
  if date_str.data = [] then false
  else
    let l := pyStrip (lowerL date_str.data)
    if l == "unknown".data || l == "n.d.".data || l == "none".data || l == [] then false
    else if hasSub "21st century" l || hasSub "21st c" l then true
    else if (hasSub "20th century" l || hasSub "20th c" l)
        && (hasSub "late" l || hasSub "end" l || hasSub "latter" l) then true
    else
      let years := (scan4All none l).filter fun v => 1900 ≤ v && v ≤ 2099
      if years.isEmpty then false else decide (1970 ≤ years.foldl Nat.max 0)

/-- One entry of the `historical_periods` dict of `get_time_period`. -/
structure PeriodInfo where
  pname : String
  start : ℤ
  endYear : ℤ
  aliases : List String := []
  keywords : List String := []

/-- The `historical_periods` dict (`src/app.py:177-213`) in insertion order.
The literal assigns the key `'cold war'` twice, so the surviving value is the
second one (no keywords, no aliases) while the key keeps its first position. -/
def historical_periods : List PeriodInfo :=
  [ { pname := "cold war", start := 1947, endYear := 1991 },
    { pname := "world war 2", start := 1939, endYear := 1945,
      aliases := ["ww2", "wwii", "second world war"] },
    { pname := "world war 1", start := 1914, endYear := 1918,
      aliases := ["ww1", "wwi", "first world war", "great war"] },
    { pname := "vietnam war", start := 1955, endYear := 1975 },
    { pname := "korean war", start := 1950, endYear := 1953 },
    { pname := "great depression", start := 1929, endYear := 1939 },
    { pname := "civil rights movement", start := 1954, endYear := 1968 },
    { pname := "industrial revolution", start := 1760, endYear := 1840 },
    { pname := "renaissance", start := 1300, endYear := 1600 },
    { pname := "medieval period", start := 476, endYear := 1450,
      aliases := ["middle ages", "medieval era"] },
    { pname := "gilded age", start := 1870, endYear := 1900 },
    { pname := "roaring twenties", start := 1920, endYear := 1929,
      aliases := ["1920s"] },
    { pname := "progressive era", start := 1896, endYear := 1916 },
    { pname := "reconstruction era", start := 1865, endYear := 1877,
      aliases := ["reconstruction period"] },
    { pname := "victorian era", start := 1837, endYear := 1901,
      aliases := ["victorian period"] } ]

/-- Result of `get_time_period`.  The presentational `name` key of the Python
dict is never read downstream and is omitted. -/
structure TimePeriod where
  is_historical_period : Bool
  start : ℤ := 0
  endYear : ℤ := 0
  keywords : List String := []

/-- `get_time_period` (`src/app.py:173-255`): first table entry whose name or
alias occurs in the lowercased theme; else an `Nth century` phrase; else a
`YYY0s` decade phrase; else not a historical period. -/
def get_time_period (theme : String) : TimePeriod :=
  let theme_lower := lowerL theme.data
  match historical_periods.find? (fun p =>
      hasSub p.pname theme_lower || p.aliases.any fun a => hasSub a theme_lower) with
  | some p =>
    { is_historical_period := true, start := p.start, endYear := p.endYear,
      keywords := p.keywords }
  | none =>
    match centuryScan theme_lower with
    | some c =>
      { is_historical_period := true, start := ((c : ℤ) - 1) * 100,
        endYear := (c : ℤ) * 100 }
    | none =>
      match decadeScan theme_lower with
      | some d =>
        { is_historical_period := true, start := (d : ℤ) * 10,
          endYear := (d : ℤ) * 10 + 9 }
      | none => { is_historical_period := false }

/-- Output of `preprocess_theme`: the theme, its lowercased phrase, the
named entities (empty on the no-spaCy fallback branch), and the `use_spacy`
flag selecting the similarity block in the scorer.  The opaque `doc` object
of the spaCy branch is represented in the scorer by its two observable
effects, the `has_vector` flag and the similarity value. -/
structure ThemeInfo where
  original : String
  theme_phrase : String
  entities : List String := []
  use_spacy : Bool := false

/-- `preprocess_theme` (`src/app.py:131-171`), basic-processing branch
(the `ImportError`/`OSError` fallback: `use_spacy = False`, no entities). -/
def preprocess_theme (theme : String) : ThemeInfo :=
  { original := theme, theme_phrase := ⟨lowerL theme.data⟩, entities := [],
    use_spacy := false }

/-- `calculate_relevance_score` (`src/app.py:282-371`).
`r` is the value drawn by `random.uniform(0, 0.1)`.  The spaCy similarity
block (`src/app.py:334-350`) runs when `theme_info.use_spacy` is set (true in
a running instance, where spaCy is loaded unconditionally at module import,
`src/app.py:1561-1569`): `hasVec` models `theme_doc.has_vector and
artwork_doc.has_vector`, and `sim` the unclamped cosine value
`theme_info['doc'].similarity(artwork_doc)`, which can be negative; the
block's `except: pass` path contributes nothing, the same as
`hasVec = false`.  The defaults `hasVec = false`, `sim = 0` give the
no-spaCy fallback path used by the pipeline embeddings. -/
def calculate_relevance_score (artwork : Artwork) (theme_info : ThemeInfo) (r : ℚ)
    (hasVec : Bool := false) (sim : ℚ := 0) : ℚ :=
  let artist_name := lowerL artwork.artist.data
  let text0 := lowerL (joinNonEmptyWithSpace
    [artwork.title, artwork.description, artwork.medium, artwork.culture,
     artwork.period, artwork.style, artwork.tags, artwork.classification])
  let artwork_text :=
    if artist_name = [] then text0
    else (splitWs artist_name).foldl
      (fun t part => if 2 < part.length then replaceAll t part else t) text0
  let time_period := get_time_period theme_info.original
  let periodScore : ℚ :=
    if time_period.is_historical_period then
      (match extract_year_from_date artwork.date with
       | some y =>
         if y ≠ 0 then
           if time_period.start ≤ y ∧ y ≤ time_period.endYear then 5
           else if time_period.endYear < y ∧ y ≤ time_period.endYear + 10 then 2
           else if time_period.endYear + 10 < y ∧ y ≤ time_period.endYear + 20 then 1
           else 0
         else 0
       | none => 0)
      + time_period.keywords.foldl
          (fun acc kw => if hasSub kw artwork_text then acc + 2 else acc) 0
    else 0
  let spacyScore : ℚ :=
    if theme_info.use_spacy && hasVec then
      sim * 2 + (if isInfixL theme_info.theme_phrase.data artwork_text then 1 else 0)
    else 0
  let phraseScore : ℚ := if isInfixL theme_info.theme_phrase.data artwork_text then 3 else 0
  let entityScore : ℚ := theme_info.entities.foldl
    (fun acc e => if isInfixL (lowerL e.data) artwork_text then acc + 1 else acc) 0
  let contempScore : ℚ :=
    if !time_period.is_historical_period && is_contemporary artwork.date then 3/10 else 0
  let score := periodScore + spacyScore + phraseScore + entityScore + contempScore + r
  min (score / 10) 1

/-! ## Python's stable sort

`list.sort(key=k, reverse=True)` is a stable sort placing larger keys first;
equal keys keep their input order.  Any stable sort computes the same list
(proved below as `eq_of_sorted_of_filter_eq`), so we model it with
`List.insertionSort` under the flipped relation `k b ≤ k a`, which is stable
in exactly Python's sense. -/

/-- `l.sort(key=k, reverse=True)` : stable descending sort by key. -/
def pySortByKey {α β : Type*} [LinearOrder β] (k : α → β) (l : List α) : List α :=
  List.insertionSort (fun a b => k b ≤ k a) l

theorem pySortByKey_perm {α β : Type*} [LinearOrder β] (k : α → β) (l : List α) :
    (pySortByKey k l).Perm l :=
  List.perm_insertionSort _ l

theorem pySortByKey_sorted {α β : Type*} [LinearOrder β] (k : α → β) (l : List α) :
    (pySortByKey k l).Sorted (fun a b => k b ≤ k a) := by
  haveI : IsTotal α (fun a b => k b ≤ k a) := ⟨fun a b => le_total (k b) (k a)⟩
  haveI : IsTrans α (fun a b => k b ≤ k a) := ⟨fun _ _ _ h1 h2 => le_trans h2 h1⟩
  exact List.sorted_insertionSort _ l

theorem filter_orderedInsert {α β : Type*} [LinearOrder β] (k : α → β) (v : β) (x : α) :
    ∀ l : List α,
      (List.orderedInsert (fun a b => k b ≤ k a) x l).filter (fun a => decide (k a = v))
        = (x :: l).filter (fun a => decide (k a = v))
  | [] => rfl
  | y :: ys => by
    by_cases h : k y ≤ k x
    · simp [List.orderedInsert, h]
    · have hxy : k x < k y := lt_of_not_le h
      have ih := filter_orderedInsert k v x ys
      have horder : List.orderedInsert (fun a b => k b ≤ k a) x (y :: ys)
          = y :: List.orderedInsert (fun a b => k b ≤ k a) x ys := by
        simp [List.orderedInsert, h]
      by_cases hx : k x = v <;> by_cases hy : k y = v
      · exact absurd (hx.trans hy.symm) (ne_of_lt hxy)
      all_goals
        rw [horder, List.filter_cons, List.filter_cons, ih, List.filter_cons,
          List.filter_cons]
        simp [hx, hy]

theorem pySortByKey_filter {α β : Type*} [LinearOrder β] (k : α → β) (v : β) :
    ∀ l : List α,
      (pySortByKey k l).filter (fun a => decide (k a = v))
        = l.filter (fun a => decide (k a = v))
  | [] => rfl
  | x :: xs => by
    have h1 := filter_orderedInsert k v x (pySortByKey k xs)
    have ih := pySortByKey_filter k v xs
    have hdef : pySortByKey k (x :: xs)
        = List.orderedInsert (fun a b => k b ≤ k a) x (pySortByKey k xs) := rfl
    rw [hdef, h1, List.filter_cons, List.filter_cons, ih]

/-- Two lists that are sorted descending by the same key and agree on every
per-key-value filter (the stability invariant) are equal: the result of a
stable descending sort is unique. -/
theorem eq_of_sorted_of_filter_eq {α β : Type*} [LinearOrder β] (k : α → β) :
    ∀ l₁ l₂ : List α,
      l₁.Sorted (fun a b => k b ≤ k a) → l₂.Sorted (fun a b => k b ≤ k a) →
      (∀ v : β, l₁.filter (fun a => decide (k a = v)) = l₂.filter (fun a => decide (k a = v))) →
      l₁ = l₂
  | [], [], _, _, _ => rfl
  | [], b :: t₂, _, _, hf => by
    have h := hf (k b)
    rw [List.filter_nil, List.filter_cons, if_pos (by simp)] at h
    exact List.noConfusion h
  | a :: t₁, [], _, _, hf => by
    have h := hf (k a)
    rw [List.filter_nil, List.filter_cons, if_pos (by simp)] at h
    exact List.noConfusion h
  | a :: t₁, b :: t₂, h₁, h₂, hf => by
    have hk : k a = k b := by
      by_contra hne
      have ha : a ∈ t₂ := by
        have h := hf (k a)
        rw [List.filter_cons, List.filter_cons, if_pos (by simp),
          if_neg (by simp only [decide_eq_true_eq]; exact fun hh => hne hh.symm)] at h
        exact List.mem_of_mem_filter (h ▸ List.mem_cons_self a _)
      have hb : b ∈ t₁ := by
        have h := hf (k b)
        rw [List.filter_cons, List.filter_cons,
          if_neg (by simp only [decide_eq_true_eq]; exact hne), if_pos (by simp)] at h
        exact List.mem_of_mem_filter (h.symm ▸ List.mem_cons_self b _)
      have hle1 : k a ≤ k b := (List.pairwise_cons.mp h₂).1 a ha
      have hle2 : k b ≤ k a := (List.pairwise_cons.mp h₁).1 b hb
      exact hne (le_antisymm hle1 hle2)
    have hhead := hf (k a)
    rw [List.filter_cons, List.filter_cons, if_pos (by simp),
      if_pos (by simp [hk.symm])] at hhead
    injection hhead with hab _
    have htail : ∀ v : β,
        t₁.filter (fun a => decide (k a = v)) = t₂.filter (fun a => decide (k a = v)) := by
      intro v
      have h := hf v
      rw [List.filter_cons, List.filter_cons] at h
      by_cases hv : k a = v
      · rw [if_pos (by simp [hv]), if_pos (by simp [hk.symm.trans hv])] at h
        injection h
      · rw [if_neg (by simp only [decide_eq_true_eq]; exact hv),
          if_neg (by simp only [decide_eq_true_eq]; exact fun hh => hv (hk.trans hh))] at h
        exact h
    have hrec := eq_of_sorted_of_filter_eq k t₁ t₂ h₁.of_cons h₂.of_cons htail
    rw [hab, hrec]

/-! ## Source search functions

Each `search_*_artwork` embedding receives the HTTP status code and the
decoded payload of the mocked museum response instead of performing network
I/O, then runs the pure record processing of the source function. -/

/-- `', '.join(filter(None, parts))`-style join of the truthy parts. -/
def joinNonEmpty (sep : String) (parts : List String) : List Char :=
  List.intercalate sep.data ((parts.filter (fun s => s != "")).map String.data)

/-- Truthiness of an optional string field: present and non-empty. -/
def optTruthy (o : Option String) : Bool := o.getD "" != ""

/-- Map with the position index, for threading per-record random draws. -/
def mapWithIdxGo {α β : Type*} (f : ℕ → α → β) : ℕ → List α → List β
  | _, [] => []
  | i, a :: rest => f i a :: mapWithIdxGo f (i + 1) rest

def mapWithIdx {α β : Type*} (f : ℕ → α → β) (l : List α) : List β :=
  mapWithIdxGo f 0 l

/-- Fields of a Met object-detail payload read by `search_met_artwork`
(missing/None string fields modelled as `""`). -/
structure MetRaw where
  title : String := ""
  artistDisplayName : String := ""
  objectDate : String := ""
  medium : String := ""
  objectDescription : String := ""
  culture : String := ""
  period : String := ""
  primaryImageSmall : String := ""
  primaryImage : String := ""
  objectURL : String := ""
  department : String := ""
  classification : String := ""
  deriving Repr, DecidableEq

/-- The `processed_artwork` dict of `search_met_artwork`
(`src/app.py:453-471`). -/
def processMetArtwork (r : MetRaw) : Artwork :=
  { title := r.title, artist := r.artistDisplayName, date := r.objectDate,
    medium := r.medium, description := r.objectDescription, culture := r.culture,
    period := r.period,
    image_url := if r.primaryImageSmall != "" then r.primaryImageSmall else r.primaryImage,
    source_url := r.objectURL, source := "Metropolitan Museum of Art",
    department := r.department, classification := r.classification,
    tags := ⟨joinNonEmpty ", " [r.culture, r.period, r.classification]⟩ }

/-- `search_met_artwork` (`src/app.py:426-489`).  `status` is the search
response's HTTP status (`response.ok` means `status < 400` for the
`requests` library); `objs` are the object-detail outcomes for the returned
object ids in order, `none` for a failed detail fetch (skipped by
`continue`); the loop visits only the first 20 ids. -/
def search_met_artwork (status : ℕ) (objs : List (Option MetRaw)) (theme : String)
    (rs : ℕ → ℚ) : List Artwork :=
  if 400 ≤ status then []
  else
    let theme_info := preprocess_theme theme
    let artworks := (((objs.take 20).filterMap id).map processMetArtwork).filter has_valid_image
    let valid_artworks := filter_valid_artworks artworks
    let scored_artworks := mapWithIdx
      (fun i a => { a with score := calculate_relevance_score a theme_info (rs i) })
      valid_artworks
    pySortByKey (fun a => a.score) scored_artworks

/-- Fields of one Art Institute of Chicago search hit read by
`search_aic_artwork`; key absence is `none`. -/
structure AicRaw where
  id : ℕ
  title : Option String := none
  image_id : Option String := none
  date_display : Option String := none
  artist_display : Option String := none
  medium_display : Option String := none
  artist_bio : Option String := none
  exhibition_history : Option String := none
  deriving Repr, DecidableEq

/-- The dict view `calculate_relevance_score` gets for an AIC hit: of the
keys the scorer reads, a raw AIC hit carries only `title`
(`src/app.py:497,510`). -/
def aicScoreView (r : AicRaw) : Artwork := { title := r.title.getD "" }

/-- The record appended for one AIC hit (`src/app.py:508-540`). -/
def buildAicArtwork (theme_info : ThemeInfo) (r_val : ℚ) (r : AicRaw) : Artwork :=
  let context :=
    (if optTruthy r.artist_bio then
      ["About the artist: " ++ r.artist_bio.getD ""] else [])
    ++ (if optTruthy r.medium_display then
      ["\nMedium: " ++ r.medium_display.getD ""] else [])
    ++ (if optTruthy r.exhibition_history then
      ["\nExhibition History: " ++ r.exhibition_history.getD ""] else [])
  { title := r.title.getD "Unknown",
    artist := r.artist_display.getD "Unknown Artist",
    date := r.date_display.getD "Unknown Date",
    image_url := "https://www.artic.edu/iiif/2/" ++ r.image_id.getD ""
      ++ "/full/843,/0/default.jpg",
    description := ⟨List.intercalate " ".data (context.map String.data)⟩,
    source := "Art Institute of Chicago",
    more_info := "https://www.artic.edu/artworks/" ++ toString r.id,
    relevance_score := calculate_relevance_score (aicScoreView r) theme_info r_val,
    is_contemporary := is_contemporary (r.date_display.getD "") }

/-- Sort key of `artworks.sort(key=lambda x: (x['is_contemporary'],
x['relevance_score']), reverse=True)` : Python compares tuples
lexicographically with `False < True`. -/
def aicSortKey (a : Artwork) : Lex (Bool × ℚ) := toLex (a.is_contemporary, a.relevance_score)

/-- `search_aic_artwork` (`src/app.py:491-544`): keep hits with a truthy
`image_id`, build records, sort by `(is_contemporary, relevance_score)`
descending, return the top 5. -/
def search_aic_artwork (status : ℕ) (raws : List AicRaw) (theme : String)
    (rs : ℕ → ℚ) : List Artwork :=
  if status ≠ 200 then []
  else
    let theme_info := preprocess_theme theme
    let artworks := mapWithIdx (fun i r => buildAicArtwork theme_info (rs i) r)
      (raws.filter fun r => optTruthy r.image_id)
    (pySortByKey aicSortKey artworks).take 5

/-- One entry of a Harvard record's `people` list. -/
structure HarvardPerson where
  displayname : Option String := none
  pculture : Option String := none
  deriving Repr, DecidableEq

/-- Fields of one Harvard Art Museums record read by
`search_harvard_artwork`; key absence is `none`. -/
structure HarvardRaw where
  title : Option String := none
  primaryimageurl : Option String := none
  people : Option (List HarvardPerson) := none
  dated : Option String := none
  description : Option String := none
  url : Option String := none
  provenance : Option String := none
  commentary : Option String := none
  labeltext : Option String := none
  technique : Option String := none
  period : Option String := none
  culture : Option String := none
  deriving Repr, DecidableEq

/-- The dict view the scorer gets for a Harvard record: of the keys it
reads, a Harvard record carries `title`, `description`, `period`,
`culture` (`src/app.py:559,573`). -/
def harvardScoreView (r : HarvardRaw) : Artwork :=
  { title := r.title.getD "", description := r.description.getD "",
    period := r.period.getD "", culture := r.culture.getD "" }

/-- The record appended for one Harvard record (`src/app.py:571-611`). -/
def buildHarvardArtwork (theme_info : ThemeInfo) (r_val : ℚ) (r : HarvardRaw) : Artwork :=
  let artist_info : HarvardPerson := match r.people with
    | some (p :: _) => p
    | _ => {}
  let context :=
    (if optTruthy artist_info.displayname then
      ["Created by " ++ artist_info.displayname.getD ""]
        ++ (if optTruthy artist_info.pculture then
          ["(" ++ artist_info.pculture.getD "" ++ ")"] else [])
      else [])
    ++ (if optTruthy r.technique then ["\nTechnique: " ++ r.technique.getD ""] else [])
    ++ (if optTruthy r.commentary then ["\nCuratorial Notes: " ++ r.commentary.getD ""]
        else if optTruthy r.labeltext then ["\nGallery Label: " ++ r.labeltext.getD ""]
        else [])
    ++ (if optTruthy r.provenance then ["\nProvenance: " ++ r.provenance.getD ""] else [])
  { title := r.title.getD "Unknown",
    artist := artist_info.displayname.getD "Unknown Artist",
    date := r.dated.getD "Unknown Date",
    image_url := r.primaryimageurl.getD "",
    description := ⟨List.intercalate " ".data (context.map String.data)⟩,
    source := "Harvard Art Museums", more_info := r.url.getD "",
    relevance_score := calculate_relevance_score (harvardScoreView r) theme_info r_val,
    is_contemporary := is_contemporary (r.dated.getD "") }

/-- `search_harvard_artwork` (`src/app.py:546-619`).  A record with a truthy
image whose `people` key holds an empty list raises `IndexError` at
`record.get('people', [{}])[0]`; the function-level handler then returns
`[]` for the whole source. -/
def search_harvard_artwork (hasKey : Bool) (status : ℕ) (recs : List HarvardRaw)
    (theme : String) (rs : ℕ → ℚ) : List Artwork :=
  if !hasKey then []
  else if status ≠ 200 then []
  else if recs.any (fun r => optTruthy r.primaryimageurl && decide (r.people = some [])) then []
  else
    let theme_info := preprocess_theme theme
    let artworks := mapWithIdx (fun i r => buildHarvardArtwork theme_info (rs i) r)
      (recs.filter fun r => optTruthy r.primaryimageurl)
    (pySortByKey aicSortKey artworks).take 5

/-- Fields of one MoMA search hit read by `search_moma_artwork`.  The
`artist` key, when present, holds an object whose `name` field the code
reads (`art.get('artist', {}).get('name')`), hence `Option (Option String)`:
outer `none` = no `artist` key, inner value = the object's `name`. -/
structure MomaRaw where
  title : Option String := none
  artist : Option (Option String) := none
  date : Option String := none
  primaryImageUrl : Option String := none
  medium : Option String := none
  description : Option String := none
  url : Option String := none
  deriving Repr, DecidableEq

/-- The dict view the scorer gets for a MoMA hit: of the keys it reads, a
MoMA hit carries `title`, `date`, `medium`, `description`. -/
def momaScoreView (r : MomaRaw) : Artwork :=
  { title := r.title.getD "", date := r.date.getD "", medium := r.medium.getD "",
    description := r.description.getD "" }

/-- The record appended for one MoMA hit (`src/app.py:914-939`).  In the
reachable (non-crashing) path the `artist` key is absent, so the
`art.get('artist', {}).get('name', 'Unknown Artist')` chain yields the
default. -/
def buildMomaArtwork (theme_info : ThemeInfo) (r_val : ℚ) (r : MomaRaw) : Artwork :=
  let artist_name := r.artist.getD none
  let context :=
    (if optTruthy artist_name then ["Created by " ++ artist_name.getD ""] else [])
    ++ (if optTruthy r.medium then ["\nMedium: " ++ r.medium.getD ""] else [])
    ++ (if optTruthy r.description then ["\nDescription: " ++ r.description.getD ""] else [])
  { title := r.title.getD "Unknown",
    artist := artist_name.getD "Unknown Artist",
    date := r.date.getD "Unknown Date",
    image_url := r.primaryImageUrl.getD "",
    description := ⟨List.intercalate " ".data (context.map String.data)⟩,
    source := "Museum of Modern Art", more_info := r.url.getD "",
    relevance_score := calculate_relevance_score (momaScoreView r) theme_info r_val,
    is_contemporary := is_contemporary (r.date.getD "") }

/-- `search_moma_artwork` (`src/app.py:894-945`): no image filtering at all —
every payload hit is appended.  If any hit carries an `artist` object, the
scorer's `artwork.get('artist', '').lower()` raises `AttributeError` on the
dict and the function-level handler returns `[]`. -/
def search_moma_artwork (hasKey : Bool) (status : ℕ) (raws : List MomaRaw)
    (theme : String) (rs : ℕ → ℚ) : List Artwork :=
  if !hasKey then []
  else if status ≠ 200 then []
  else if raws.any (fun r => r.artist.isSome) then []
  else
    let theme_info := preprocess_theme theme
    mapWithIdx (fun i r => buildMomaArtwork theme_info (rs i) r) raws

/-! ## The `/search` endpoint (`src/app.py:1584-1682`) -/

/-- `sort_key` (`src/app.py:1654-1663`): score, doubled for works dated
inside the requested historical period (`artwork.get('relevance_score', 0)`;
Met records carry `score` instead, so their default 0 is read here). -/
def sort_key (time_period : TimePeriod) (artwork : Artwork) : ℚ :=
  let score := artwork.relevance_score
  if time_period.is_historical_period then
    match extract_year_from_date artwork.date with
    | some y =>
      if y ≠ 0 ∧ time_period.start ≤ y ∧ y ≤ time_period.endYear then score * 2 else score
    | none => score
  else score

/-- The final ordering-and-truncation step of the endpoint
(`src/app.py:1650-1668`): stable-sort the concatenated results by `sort_key`
descending and keep the top 20.  No deduplication and no quota logic exist
in this iteration. -/
def searchAggregate (theme : String) (all_results : List Artwork) : List Artwork :=
  (pySortByKey (sort_key (get_time_period theme)) all_results).take 20

/-- The parts of the Flask request the endpoint reads: `request.is_json`,
`request.get_json()` (`none` = no body, inner value = the body's `theme`
field), and `request.form.get('theme', '')`. -/
structure HttpRequest where
  is_json : Bool
  json_data : Option (Option String) := none
  form_theme : Option String := none

/-- Theme extraction of the endpoint (`src/app.py:1587-1593`). -/
def requestTheme (req : HttpRequest) : String :=
  if req.is_json then
    match req.json_data with
    | none => ""
    | some mt => ⟨pyStrip (mt.getD "").data⟩
  else ⟨pyStrip (req.form_theme.getD "").data⟩

/-- The three response shapes of the endpoint: 400 (empty theme), 404 (no
results), 200 (results).  Presentational count fields are omitted. -/
inductive SearchResponse where
  | badRequest (error : String)
  | notFound (error : String) (api_errors : List String)
  | ok (results : List Artwork) (api_errors : List String)
  deriving Repr, DecidableEq

def isBadRequest : SearchResponse → Bool
  | .badRequest _ => true
  | _ => false

def isOkResponse : SearchResponse → Bool
  | .ok _ _ => true
  | _ => false

/-- The future-collection loop (`src/app.py:1632-1639`): per-source outcomes
in submission order; a successful non-empty list is concatenated onto
`all_results`, an exception is recorded in `api_errors`. -/
def collectResults : List (Except String (List Artwork)) → List Artwork × List String
  | [] => ([], [])
  | .ok results :: rest =>
    (if results.isEmpty then (collectResults rest).1
     else results ++ (collectResults rest).1,
     (collectResults rest).2)
  | .error msg :: rest => ((collectResults rest).1, msg :: (collectResults rest).2)

/-- The `/search` endpoint handler (`src/app.py:1584-1682`), with the
per-source fetches mocked by `outcomes`.  400 iff the stripped theme is
empty; 404 iff no source contributed a record; otherwise 200 with the
sorted, truncated aggregate. -/
def search (req : HttpRequest) (outcomes : List (Except String (List Artwork))) :
    SearchResponse :=
  if requestTheme req = "" then .badRequest "Theme cannot be empty"
  else if (collectResults outcomes).1 = [] then
    .notFound
      (if (collectResults outcomes).2.isEmpty then "No artworks found matching your theme."
       else "No artworks found matching your theme. Some APIs encountered errors.")
      (collectResults outcomes).2
  else .ok (searchAggregate (requestTheme req) (collectResults outcomes).1)
    (collectResults outcomes).2

/-! ## Facts about the scanners -/

theorem uint32_le_iff (a b : UInt32) : a ≤ b ↔ a.toNat ≤ b.toNat := by
  rw [UInt32.le_def, BitVec.le_def]
  rfl

/-- ASCII lowering preserves digit-ness (`A`-`Z` maps into `a`-`z`, which are
not digits, and everything else is fixed). -/
theorem toLower_isDigit_eq (c : Char) : (Char.toLower c).isDigit = c.isDigit := by
  simp only [Char.toLower, Char.toNat]
  split
  · rename_i h
    have hc : c.isDigit = false := by
      simp only [Char.isDigit, Bool.and_eq_false_iff]
      right
      simp only [decide_eq_false_iff_not]
      rw [uint32_le_iff]
      have h57 : (57 : UInt32).toNat = 57 := rfl
      rw [h57]
      omega
    rw [hc]
    have hvalid : (c.val.toNat + 32).isValidChar := by
      left
      omega
    have hofn : (Char.ofNat (c.val.toNat + 32)).val.toNat = c.toNat + 32 := by
      unfold Char.ofNat
      rw [dif_pos hvalid]
      rfl
    simp only [Char.isDigit, Bool.and_eq_false_iff]
    right
    simp only [decide_eq_false_iff_not]
    rw [uint32_le_iff]
    have h57 : (57 : UInt32).toNat = 57 := rfl
    rw [h57, hofn]
    have hback : Char.toNat c = c.val.toNat := rfl
    omega
  · rfl

theorem toLower_isDigit_false {c : Char} (h : c.isDigit = false) :
    (Char.toLower c).isDigit = false := (toLower_isDigit_eq c).trans h

/-- `re.search` returns the leftmost match: `scan4` is the head of the list
of all matches. -/
theorem scan4_eq_head (pre : Option Char) :
    ∀ l : List Char, scan4 pre l = (scan4All pre l).head?
  | [] => rfl
  | c :: rest => by
    simp only [scan4, scan4All]
    cases hy : year4At pre (c :: rest) with
    | some v => simp
    | none => simpa using scan4_eq_head (some c) rest

theorem year4At_noDigit (pre : Option Char) :
    ∀ l : List Char, (∀ c ∈ l, c.isDigit = false) → year4At pre l = none
  | [], _ => rfl
  | [_], _ => rfl
  | [_, _], _ => rfl
  | [_, _, _], _ => rfl
  | c1 :: _ :: _ :: _ :: _, h => by
    simp [year4At, h c1 (by simp)]

theorem scan4_noDigit :
    ∀ (pre : Option Char) (l : List Char),
      (∀ c ∈ l, c.isDigit = false) → scan4 pre l = none
  | _, [], _ => rfl
  | pre, c :: rest, h => by
    have h2 := scan4_noDigit (some c) rest fun x hx => h x (List.mem_cons_of_mem _ hx)
    simp [scan4, year4At_noDigit pre (c :: rest) h, h2]

theorem centuryAt_noDigit :
    ∀ l : List Char, (∀ c ∈ l, c.isDigit = false) → centuryAt l = none
  | [], _ => rfl
  | c :: _, h => by simp [centuryAt, h c (by simp)]

theorem centuryScan_noDigit :
    ∀ l : List Char, (∀ c ∈ l, c.isDigit = false) → centuryScan l = none
  | [], _ => rfl
  | c :: rest, h => by
    have h2 := centuryScan_noDigit rest fun x hx => h x (List.mem_cons_of_mem _ hx)
    simp [centuryScan, centuryAt_noDigit (c :: rest) h, h2]

theorem decadeAt_noDigit :
    ∀ l : List Char, (∀ c ∈ l, c.isDigit = false) → decadeAt l = none
  | [], _ => rfl
  | [_], _ => rfl
  | [_, _], _ => rfl
  | [_, _, _], _ => rfl
  | [_, _, _, _], _ => rfl
  | c1 :: _ :: _ :: _ :: _ :: _, h => by
    simp [decadeAt, h c1 (by simp)]

theorem decadeScan_noDigit :
    ∀ l : List Char, (∀ c ∈ l, c.isDigit = false) → decadeScan l = none
  | [], _ => rfl
  | c :: rest, h => by
    have h2 := decadeScan_noDigit rest fun x hx => h x (List.mem_cons_of_mem _ hx)
    simp [decadeScan, decadeAt_noDigit (c :: rest) h, h2]

/-! ## Claim C1 — year extraction -/

/-- C1, counterexample: the claim says year extraction returns the maximum
of the years found, so `"ca. 1850-1875"` would yield 1875; the code's
`re.search(r'\b(\d{4})\b', ...)` returns the first (leftmost) match, 1850. -/
theorem C1_counterexample :
    extract_year_from_date "ca. 1850-1875" = some 1850 ∧ (1850 : ℤ) ≠ 1875 :=
  ⟨by decide, by decide⟩

/-- C1, amended: for every date string in which the `\b(\d{4})\b` scanner
finds at least one four-digit year, `extract_year_from_date` returns the
first (leftmost) such year — not the maximum; a date string containing no
digit at all yields `none` (a distinguished absent value, not 0); and
`"19th century"` yields the century midpoint 1850 ∈ [1800, 1900). -/
theorem C1_amended :
    (∀ (s : String) (v : ℕ), (scan4All none s.data).head? = some v →
      extract_year_from_date s = some (v : ℤ))
    ∧ (∀ s : String, (∀ c ∈ s.data, c.isDigit = false) →
      extract_year_from_date s = none)
    ∧ extract_year_from_date "19th century" = some 1850
    ∧ (1800 : ℤ) ≤ 1850 ∧ (1850 : ℤ) < 1900 := by
  refine ⟨?_, ?_, by decide, by decide, by decide⟩
  · intro s v h
    have hne : ¬ s.data = [] := by
      intro hnil
      rw [hnil] at h
      simp [scan4All] at h
    have hs : scan4 none s.data = some v := by rw [scan4_eq_head]; exact h
    unfold extract_year_from_date
    rw [if_neg hne, hs]
  · intro s h
    unfold extract_year_from_date
    by_cases hnil : s.data = []
    · rw [if_pos hnil]
    · have hlow : ∀ c ∈ lowerL s.data, c.isDigit = false := by
        intro c hc
        simp only [lowerL] at hc
        obtain ⟨c', hc', rfl⟩ := List.mem_map.mp hc
        exact toLower_isDigit_false (h c' hc')
      rw [if_neg hnil, scan4_noDigit none s.data h,
        centuryScan_noDigit _ hlow, decadeScan_noDigit s.data h]

/-- Witness for C1: the amended theorem applied at `"ca. 1850-1875"` (first
year wins) and at a digit-free date string. -/
theorem C1_witness :
    extract_year_from_date "ca. 1850-1875" = some 1850
    ∧ extract_year_from_date "undated work" = none :=
  ⟨C1_amended.1 "ca. 1850-1875" 1850 (by decide),
   C1_amended.2.1 "undated work" (by decide)⟩

/-! ## Membership facts for the pipelines -/

theorem mem_mapWithIdxGo {α β : Type*} (f : ℕ → α → β) :
    ∀ (i : ℕ) (l : List α) (b : β), b ∈ mapWithIdxGo f i l → ∃ j a, a ∈ l ∧ b = f j a
  | _, [], b, h => absurd h (List.not_mem_nil b)
  | i, a :: rest, b, h => by
    rcases List.mem_cons.mp h with h | h
    · exact ⟨i, a, List.mem_cons_self _ _, h⟩
    · obtain ⟨j, a', ha', hb⟩ := mem_mapWithIdxGo f (i + 1) rest b h
      exact ⟨j, a', List.mem_cons_of_mem _ ha', hb⟩

theorem mem_mapWithIdx {α β : Type*} (f : ℕ → α → β) (l : List α) (b : β)
    (h : b ∈ mapWithIdx f l) : ∃ j a, a ∈ l ∧ b = f j a :=
  mem_mapWithIdxGo f 0 l b h

/-- Every record returned by the Met pipeline is a scored copy of a record
that passed `filter_valid_artworks`. -/
theorem search_met_mem_valid (status : ℕ) (objs : List (Option MetRaw))
    (theme : String) (rs : ℕ → ℚ) :
    ∀ a ∈ search_met_artwork status objs theme rs,
      ∃ b s, (has_valid_image b && b.title != "" && b.date != ""
          && (b.description != "" || b.medium != "" || b.culture != ""
            || b.period != "")) = true
        ∧ a = { b with score := s } := by
  intro a ha
  by_cases h400 : 400 ≤ status
  · simp [search_met_artwork, h400] at ha
  · simp only [search_met_artwork, if_neg h400] at ha
    have ha2 := (pySortByKey_perm (fun x : Artwork => x.score) _).mem_iff.mp ha
    obtain ⟨j, b, hb, rfl⟩ := mem_mapWithIdx _ _ _ ha2
    unfold filter_valid_artworks at hb
    have hmem := List.mem_filter.mp hb
    exact ⟨b, _, hmem.2, rfl⟩

/-! ## Claim C2 — image-URL invariant -/

/-- A MoMA payload hit carrying no `primaryImageUrl` key. -/
def momaNoImageHit : MomaRaw := { title := some "Untitled Study", date := some "1990" }

/-- C2, counterexample: `search_moma_artwork` performs no image filtering, so
a payload hit without an image yields a returned record whose `image_url` is
`""` and which fails `has_valid_image` — the claimed all-sources invariant is
false. -/
theorem C2_counterexample :
    ((search_moma_artwork true 200 [momaNoImageHit] "nature" fun _ => 0).all
      has_valid_image) = false := by decide

/-- C2, amended: the invariant holds for the Met source function — every
record returned by `search_met_artwork` passes `has_valid_image` (non-empty
image URL containing no placeholder indicator) — but not for every source
function: `search_moma_artwork` does no image filtering at all. -/
theorem C2_amended (status : ℕ) (objs : List (Option MetRaw)) (theme : String)
    (rs : ℕ → ℚ) :
    ∀ a ∈ search_met_artwork status objs theme rs, has_valid_image a = true := by
  intro a ha
  obtain ⟨b, s, hb, rfl⟩ := search_met_mem_valid status objs theme rs a ha
  simp only [Bool.and_eq_true] at hb
  exact hb.1.1.1

/-- Witness for C2: the amended theorem applied to a one-hit Met payload. -/
theorem C2_witness :
    has_valid_image
      { processMetArtwork
          { title := "Wheat Field", objectDate := "1889", medium := "Oil on canvas",
            primaryImageSmall := "https://images.example.org/wheat.jpg" } with
        score := calculate_relevance_score
          (processMetArtwork
            { title := "Wheat Field", objectDate := "1889", medium := "Oil on canvas",
              primaryImageSmall := "https://images.example.org/wheat.jpg" })
          (preprocess_theme "nature") 0 } = true :=
  C2_amended 200
    [some { title := "Wheat Field", objectDate := "1889", medium := "Oil on canvas",
            primaryImageSmall := "https://images.example.org/wheat.jpg" }]
    "nature" (fun _ => 0) _ (by with_unfolding_all decide)

/-! ## Claim C3 — religious quota -/

def religiousRecC3 : Artwork :=
  { title := "Madonna and Child", relevance_score := 1, is_religious := true }

/-- C3, counterexample: with 15 candidates all flagged religious, the final
list contains all 15 of them — more than the claimed cap of 2 — because this
iteration's aggregation step has no quota logic at all. -/
theorem C3_counterexample :
    ¬ ((searchAggregate "art" (List.replicate 15 religiousRecC3)).countP
        (fun a => a.is_religious) ≤ 2) := by decide

/-- C3, amended: the aggregation applies no per-category quota; when every
candidate is religious-flagged, every record of the final list is religious
and the only bound is the overall top-20 truncation. -/
theorem C3_amended (theme : String) (cands : List Artwork)
    (hall : ∀ a ∈ cands, a.is_religious = true) :
    (searchAggregate theme cands).countP (fun a => a.is_religious)
      = min 20 cands.length := by
  unfold searchAggregate
  have hperm := pySortByKey_perm (sort_key (get_time_period theme)) cands
  have hall2 : ∀ a ∈ (pySortByKey (sort_key (get_time_period theme)) cands).take 20,
      (fun a : Artwork => a.is_religious) a = true := fun a ha =>
    hall a (hperm.mem_iff.mp (List.take_subset _ _ ha))
  rw [List.countP_eq_length.mpr hall2, List.length_take, hperm.length_eq]

/-- Witness for C3: 15 religious-flagged candidates all survive. -/
theorem C3_witness :
    (searchAggregate "art" (List.replicate 15 religiousRecC3)).countP
      (fun a => a.is_religious) = min 20 (List.replicate 15 religiousRecC3).length :=
  C3_amended "art" _ (by decide)

/-! ## Claim C4 — deduplication by combined id -/

/-- Modelled from the spec: `combined id = {source}_{native_id}`.  The code
of this iteration never constructs a combined id and its records carry no
native-id field; the museum page link (`more_info`) serves as the native
identifier for stating the claim. -/
def combined_id (a : Artwork) : String := a.source ++ "_" ++ a.more_info

def dupRecC4 : Artwork :=
  { title := "Water Lilies", source := "Museum of Modern Art",
    more_info := "https://moma.example.org/works/1", relevance_score := 1 }

/-- C4, counterexample: the aggregation step performs no deduplication —
feeding the same record twice yields a final list with two entries sharing
one combined id, refuting the claimed invariant. -/
theorem C4_counterexample :
    searchAggregate "art" [dupRecC4, dupRecC4] = [dupRecC4, dupRecC4]
    ∧ ¬ ([dupRecC4, dupRecC4].Pairwise fun a b => combined_id a ≠ combined_id b) := by
  refine ⟨by decide, fun h => ?_⟩
  exact (List.pairwise_cons.mp h).1 dupRecC4 (List.mem_singleton_self _) rfl

/-- C4, amended: no deduplication happens before ordering and truncation:
whenever the concatenated candidate list fits the 20-item limit, the final
list is a permutation of it, duplicated combined ids included. -/
theorem C4_amended (theme : String) (cands : List Artwork)
    (h : cands.length ≤ 20) : (searchAggregate theme cands).Perm cands := by
  unfold searchAggregate
  rw [List.take_of_length_le (by
    rw [(pySortByKey_perm (sort_key (get_time_period theme)) cands).length_eq]
    exact h)]
  exact pySortByKey_perm _ _

/-- Witness for C4: the duplicated pair flows through unchanged. -/
theorem C4_witness :
    (searchAggregate "art" [dupRecC4, dupRecC4]).Perm [dupRecC4, dupRecC4] :=
  C4_amended "art" _ (by decide)

/-! ## Claim C5 — endpoint status behaviour -/

/-- If any source outcome succeeded with a non-empty list, the collected
`all_results` list is non-empty. -/
theorem collectResults_fst_ne_nil :
    ∀ (outs : List (Except String (List Artwork))) (l : List Artwork),
      Except.ok l ∈ outs → l ≠ [] → (collectResults outs).1 ≠ []
  | [], l, hmem, _ => absurd hmem (List.not_mem_nil _)
  | .ok results :: rest, l, hmem, hne => by
    simp only [collectResults]
    rcases List.mem_cons.mp hmem with heq | hmem'
    · have hrl : l = results := by injection heq
      subst hrl
      rw [if_neg (by simpa [List.isEmpty_iff] using hne)]
      simp [hne]
    · by_cases hre : results.isEmpty = true
      · rw [if_pos hre]
        exact collectResults_fst_ne_nil rest l hmem' hne
      · rw [if_neg hre]
        intro hcon
        rcases List.append_eq_nil.mp hcon with ⟨h1, _⟩
        exact hre (by simp [h1])
  | .error msg :: rest, l, hmem, hne => by
    simp only [collectResults]
    rcases List.mem_cons.mp hmem with heq | hmem'
    · exact absurd heq (by simp)
    · exact collectResults_fst_ne_nil rest l hmem' hne

/-- C5: the endpoint answers 400 exactly when the stripped theme is empty;
with a non-empty theme, any successful non-empty source outcome forces a 200
response, no matter how many other sources failed — per-item failures never
fail the whole request. -/
theorem C5_endpoint (req : HttpRequest) (outcomes : List (Except String (List Artwork))) :
    (isBadRequest (search req outcomes) = true ↔ requestTheme req = "")
    ∧ (requestTheme req ≠ "" → ∀ l : List Artwork, Except.ok l ∈ outcomes → l ≠ [] →
        isOkResponse (search req outcomes) = true) := by
  by_cases hth : requestTheme req = ""
  · refine ⟨?_, fun hne => absurd hth hne⟩
    simp [search, hth, isBadRequest]
  · have hbad : isBadRequest (search req outcomes) = false := by
      unfold search
      rw [if_neg hth]
      split <;> rfl
    refine ⟨?_, ?_⟩
    · rw [hbad]
      simp only [Bool.false_eq_true, false_iff]
      exact hth
    · intro _ l hmem hlne
      have hne := collectResults_fst_ne_nil outcomes l hmem hlne
      unfold search
      rw [if_neg hth, if_neg hne]
      rfl

/-- Witness for C5: a request with theme `" nature "` and one failed plus one
successful source yields a 200 response. -/
theorem C5_witness :
    isOkResponse
      (search { is_json := true, json_data := some (some " nature ") }
        [Except.error "Met Museum API error: timeout",
         Except.ok [{ title := "River Scene", relevance_score := 1 }]]) = true :=
  (C5_endpoint { is_json := true, json_data := some (some " nature ") }
      [Except.error "Met Museum API error: timeout",
       Except.ok [{ title := "River Scene", relevance_score := 1 }]]).2
    (by decide) [{ title := "River Scene", relevance_score := 1 }]
    (List.mem_cons_of_mem _ (List.mem_cons_self _ _)) (by decide)

/-! ## Claim C6 — no RateLimited distinction -/

def aicHitC6 : AicRaw := { id := 7, title := some "Composition", image_id := some "img7" }

def metHitC6 : MetRaw :=
  { title := "Composition", objectDate := "1930", medium := "Oil",
    primaryImageSmall := "https://img.example.org/c.jpg" }

/-- C6, counterexample: on HTTP 429 the AIC and Met fetchers return exactly
what they return on HTTP 500 — an empty list — so no `RateLimited` condition
distinct from generic failure is signalled; the same payload at status 200
produces a record, so the emptiness is not vacuous. -/
theorem C6_counterexample :
    search_aic_artwork 429 [aicHitC6] "nature" (fun _ => 0)
        = search_aic_artwork 500 [aicHitC6] "nature" (fun _ => 0)
    ∧ search_met_artwork 429 [some metHitC6] "nature" (fun _ => 0)
        = search_met_artwork 500 [some metHitC6] "nature" (fun _ => 0)
    ∧ (search_aic_artwork 200 [aicHitC6] "nature" fun _ => 0).length = 1
    ∧ (search_met_artwork 200 [some metHitC6] "nature" fun _ => 0).length = 1 :=
  ⟨rfl, rfl, by decide, by decide⟩

/-- C6, amended: on every non-success status — 429 included — the AIC and
Met fetchers return an empty list, indistinguishable from any other failure;
no RateLimited signal exists for the caller to act on. -/
theorem C6_amended (status : ℕ) (raws : List AicRaw) (objs : List (Option MetRaw))
    (theme : String) (rs : ℕ → ℚ) :
    (status ≠ 200 → search_aic_artwork status raws theme rs = [])
    ∧ (400 ≤ status → search_met_artwork status objs theme rs = []) := by
  constructor
  · intro h
    simp [search_aic_artwork, h]
  · intro h
    simp [search_met_artwork, h]

/-- Witness for C6: both fetchers return `[]` at status 429 on non-empty
payloads. -/
theorem C6_witness :
    search_aic_artwork 429 [aicHitC6] "nature" (fun _ => 0) = []
    ∧ search_met_artwork 429 [some metHitC6] "nature" (fun _ => 0) = [] :=
  ⟨(C6_amended 429 [aicHitC6] [some metHitC6] "nature" fun _ => 0).1 (by decide),
   (C6_amended 429 [aicHitC6] [some metHitC6] "nature" fun _ => 0).2 (by decide)⟩

/-! ## Claim C7 — relevance-score bounds -/

theorem keyword_foldl_nonneg (text : List Char) :
    ∀ (kws : List String) (init : ℚ), 0 ≤ init →
      0 ≤ kws.foldl (fun acc kw => if hasSub kw text then acc + 2 else acc) init
  | [], _, h => h
  | _ :: rest, init, h => by
    simp only [List.foldl_cons]
    apply keyword_foldl_nonneg text rest
    split
    · linarith
    · exact h

theorem entity_foldl_nonneg (text : List Char) :
    ∀ (es : List String) (init : ℚ), 0 ≤ init →
      0 ≤ es.foldl (fun acc e => if isInfixL (lowerL e.data) text then acc + 1 else acc) init
  | [], _, h => h
  | _ :: rest, init, h => by
    simp only [List.foldl_cons]
    apply entity_foldl_nonneg text rest
    split
    · linarith
    · exact h

/-- C7, counterexample: with spaCy active (`use_spacy = true` — the state of
every running instance, since `src/app.py:1561-1569` loads the model
unconditionally — and both documents carrying vectors), a cosine similarity
of −1 on an otherwise non-matching record makes the returned score
`min(−2/10, 1) = −1/5 < 0`: the computed relevance score is not always
non-negative. -/
theorem C7_counterexample :
    calculate_relevance_score { }
      { original := "solitude", theme_phrase := "solitude", use_spacy := true }
      0 true (-1) < 0 := by
  with_unfolding_all decide

/-- C7, amended: after the `min(score/10, 1.0)` normalization the relevance
score never exceeds 1, for every input including the spaCy path; and it is
non-negative whenever the spaCy similarity contribution is non-negative — in
particular on the no-spaCy basic-matching path — but an active negative
cosine similarity can drive it below 0 (see the counterexample). -/
theorem C7_amended (artwork : Artwork) (theme_info : ThemeInfo) (r : ℚ)
    (hasVec : Bool) (sim : ℚ) (hr : 0 ≤ r) :
    calculate_relevance_score artwork theme_info r hasVec sim ≤ 1
    ∧ (0 ≤ sim → 0 ≤ calculate_relevance_score artwork theme_info r hasVec sim) := by
  constructor
  · simp only [calculate_relevance_score]
    exact min_le_right _ _
  · intro hsim
    have key : ∀ x : ℚ, 0 ≤ x → 0 ≤ min (x / 10) 1 := fun x hx =>
      le_min (div_nonneg hx (by norm_num)) zero_le_one
    simp only [calculate_relevance_score]
    apply key
    refine add_nonneg (add_nonneg (add_nonneg (add_nonneg (add_nonneg ?_ ?_) ?_) ?_) ?_) hr
    · split
      · apply add_nonneg
        · split
          · split_ifs <;> norm_num
          · norm_num
        · exact keyword_foldl_nonneg _ _ 0 le_rfl
      · norm_num
    · split
      · refine add_nonneg (by linarith) ?_
        split_ifs <;> norm_num
      · norm_num
    · split_ifs <;> norm_num
    · exact entity_foldl_nonneg _ _ 0 le_rfl
    · split_ifs <;> norm_num

/-- Witness for C7: the amended bounds at a concrete record, theme, zero
draw and a non-negative similarity. -/
theorem C7_witness :
    calculate_relevance_score { title := "Forest Path", date := "1992" }
        (preprocess_theme "nature") 0 true (1 / 2) ≤ 1
    ∧ 0 ≤ calculate_relevance_score { title := "Forest Path", date := "1992" }
        (preprocess_theme "nature") 0 true (1 / 2) :=
  ⟨(C7_amended { title := "Forest Path", date := "1992" } (preprocess_theme "nature")
      0 true (1 / 2) le_rfl).1,
   (C7_amended { title := "Forest Path", date := "1992" } (preprocess_theme "nature")
      0 true (1 / 2) le_rfl).2 (by norm_num)⟩

/-! ## Claim C8 — determinism of the final ordering step -/

/-- `o` is the result of one run of a stable descending sort of `l` by key
`k`: it is sorted with larger keys first and, for every key value, lists the
elements of that key in their original relative order (the characterization
of stability).  Python's `list.sort(key=k, reverse=True)` satisfies exactly
this. -/
def IsStableSortDescBy {α β : Type*} [LinearOrder β] (k : α → β) (l o : List α) : Prop :=
  o.Pairwise (fun a b => k b ≤ k a)
    ∧ ∀ v : β, o.filter (fun a => decide (k a = v)) = l.filter (fun a => decide (k a = v))

/-- C8: the final ordering-and-truncation step is deterministic — any run of
a stable descending sort by `sort_key` on the same scored candidate list,
truncated to the top 20, produces exactly `searchAggregate`'s output; in
particular two runs on the same input agree record-for-record. -/
theorem C8_deterministic (theme : String) (cands o : List Artwork)
    (h : IsStableSortDescBy (sort_key (get_time_period theme)) cands o) :
    o.take 20 = searchAggregate theme cands := by
  unfold searchAggregate
  have heq := eq_of_sorted_of_filter_eq (sort_key (get_time_period theme)) o
    (pySortByKey (sort_key (get_time_period theme)) cands) h.1
    (pySortByKey_sorted _ _)
    (fun v => (h.2 v).trans (pySortByKey_filter _ v cands).symm)
  rw [heq]

/-- Witness for C8: a pre-sorted two-record list is its own stable sort, and
truncation reproduces the aggregate. -/
theorem C8_witness :
    ([{ title := "First", relevance_score := 2 },
      { title := "Second", relevance_score := 1 }] : List Artwork).take 20
      = searchAggregate "art"
          [{ title := "First", relevance_score := 2 },
           { title := "Second", relevance_score := 1 }] :=
  C8_deterministic "art" _ _ ⟨by decide, fun v => rfl⟩

/-! ## Claim C9 — contemporary records precede non-contemporary ones -/

/-- Sorting by the tuple key `(is_contemporary, relevance_score)` descending
places every contemporary record before every non-contemporary one, whatever
the scores; the property survives truncation. -/
theorem pairwise_contemp_take (l : List Artwork) (n : ℕ) :
    ((pySortByKey aicSortKey l).take n).Pairwise
      fun a b => b.is_contemporary = true → a.is_contemporary = true := by
  have hs := pySortByKey_sorted aicSortKey l
  have h2 : (pySortByKey aicSortKey l).Pairwise
      fun a b => b.is_contemporary = true → a.is_contemporary = true := by
    refine hs.imp ?_
    intro a b hle hb
    by_contra ha
    have ha' : a.is_contemporary = false := by
      cases hcase : a.is_contemporary
      · rfl
      · exact absurd hcase ha
    have hlt : aicSortKey a < aicSortKey b := by
      unfold aicSortKey
      rw [ha', hb]
      exact Prod.Lex.left _ _ (by decide)
    exact absurd hle (not_le_of_lt hlt)
  exact h2.sublist (List.take_sublist _ _)

/-- C9: in the lists returned by the AIC and Harvard search functions, every
record flagged contemporary precedes every non-contemporary record,
regardless of relevance scores. -/
theorem C9_contemporary_precedes (statusA : ℕ) (rawsA : List AicRaw) (hasKey : Bool)
    (statusH : ℕ) (recsH : List HarvardRaw) (theme : String) (rs rs' : ℕ → ℚ) :
    ((search_aic_artwork statusA rawsA theme rs).Pairwise
      fun a b => b.is_contemporary = true → a.is_contemporary = true)
    ∧ ((search_harvard_artwork hasKey statusH recsH theme rs').Pairwise
      fun a b => b.is_contemporary = true → a.is_contemporary = true) := by
  constructor
  · unfold search_aic_artwork
    split
    · exact List.Pairwise.nil
    · exact pairwise_contemp_take _ 5
  · unfold search_harvard_artwork
    split
    · exact List.Pairwise.nil
    · split
      · exact List.Pairwise.nil
      · split
        · exact List.Pairwise.nil
        · exact pairwise_contemp_take _ 5

/-! ## Claim C10 — Met metadata requirements -/

/-- C10: every record returned by the Met search function has a valid image,
a non-empty title, a non-empty date, and at least one non-empty field among
description, medium, culture and period; anything else was silently
dropped by `filter_valid_artworks`. -/
theorem C10_met_required_metadata (status : ℕ) (objs : List (Option MetRaw))
    (theme : String) (rs : ℕ → ℚ) :
    ∀ a ∈ search_met_artwork status objs theme rs,
      has_valid_image a = true ∧ a.title ≠ "" ∧ a.date ≠ ""
        ∧ (a.description ≠ "" ∨ a.medium ≠ "" ∨ a.culture ≠ "" ∨ a.period ≠ "") := by
  intro a ha
  obtain ⟨b, s, hb, rfl⟩ := search_met_mem_valid status objs theme rs a ha
  simp only [Bool.and_eq_true, Bool.or_eq_true, bne_iff_ne, ne_eq] at hb
  obtain ⟨⟨⟨h1, h2⟩, h3⟩, h4⟩ := hb
  refine ⟨h1, h2, h3, ?_⟩
  tauto

def metRawC10 : MetRaw :=
  { title := "The Harvesters", objectDate := "1565", medium := "Oil on wood",
    culture := "Netherlandish",
    primaryImageSmall := "https://images.example.org/harvesters.jpg" }

/-- Witness for C10: the invariant at the concrete record produced from a
one-hit Met payload. -/
theorem C10_witness :
    has_valid_image
        { processMetArtwork metRawC10 with
          score := calculate_relevance_score (processMetArtwork metRawC10)
            (preprocess_theme "nature") 0 } = true
    ∧ ({ processMetArtwork metRawC10 with
          score := calculate_relevance_score (processMetArtwork metRawC10)
            (preprocess_theme "nature") 0 } : Artwork).title ≠ ""
    ∧ ({ processMetArtwork metRawC10 with
          score := calculate_relevance_score (processMetArtwork metRawC10)
            (preprocess_theme "nature") 0 } : Artwork).date ≠ ""
    ∧ (({ processMetArtwork metRawC10 with
          score := calculate_relevance_score (processMetArtwork metRawC10)
            (preprocess_theme "nature") 0 } : Artwork).description ≠ ""
      ∨ ({ processMetArtwork metRawC10 with
          score := calculate_relevance_score (processMetArtwork metRawC10)
            (preprocess_theme "nature") 0 } : Artwork).medium ≠ ""
      ∨ ({ processMetArtwork metRawC10 with
          score := calculate_relevance_score (processMetArtwork metRawC10)
            (preprocess_theme "nature") 0 } : Artwork).culture ≠ ""
      ∨ ({ processMetArtwork metRawC10 with
          score := calculate_relevance_score (processMetArtwork metRawC10)
            (preprocess_theme "nature") 0 } : Artwork).period ≠ "") :=
  C10_met_required_metadata 200 [some metRawC10] "nature" (fun _ => 0) _
    (by with_unfolding_all decide)
